import Mathlib

/-!
Verification of the replicated write path and state machine of
`src/raft_server.cpp` (Typesense raft server), as a shallow embedding.

External collaborators (the HTTP client, the message dispatcher, the
filesystem, rocksdb, braft) are modelled as oracles: an environment
record says which external step succeeds and which status an outbound
HTTP call returns.  Every function of the source is translated to a pure
Lean function over these oracles which returns its result together with
the ordered list of observable side effects (`Event`s) it performed.
-/

namespace RaftServer

/-- Observable side effects of the state machine, in program order.
`sendRepl b` is `message_dispatcher->send_message(REPLICATION_MSG, arg)`
where `b` records whether `arg->req->route_hash` was set to
`ROUTE_CODES::ALREADY_HANDLED`.  `freePair` is the `delete request;
delete response;` pair in the forwarding task; `freeEntry i`,
`dispatchEntry i`, `waitAwait i` and `triggerSnapshot i` are the apply
loop's effects on the i-th entry of the batch. -/
inductive Event where
  | resetDb
  | deleteStateDir
  | copyDirEv
  | createStateDir
  | storeInitDb
  | collectionsLoad
  | readinessIncr
  | initDbCall
  | nodeInit
  | sendRepl (alreadyHandled : Bool)
  | notifyAwait
  | httpPost
  | httpPut
  | httpDelete
  | proxyAsync
  | freePair
  | dispatchEntry (i : Nat)
  | waitAwait (i : Nat)
  | triggerSnapshot (i : Nat)
  | freeEntry (i : Nat)
  | rollback
  | changePeers
  | resetPeers
  | submitTask
  deriving DecidableEq

/-- The fields of `http_req` that `write`/`follower_write` inspect.
`proceedReq` is `_req->proceed_req != nullptr`. -/
structure HttpReq where
  proceedReq : Bool
  httpMethod : String
  path : String
  body : String
  deriving DecidableEq

/-- The fields of `http_res` that the replication code reads or writes. -/
structure HttpRes where
  proxiedStream : Bool
  autoDispose : Bool
  statusCode : Int
  resBody : String
  contentType : String
  final : Bool
  deriving DecidableEq

/-- Modelled from the spec: `http_res::set_500` (declared in a header not
under src/) records an HTTP 500 response carrying the given message. -/
def set_500 (res : HttpRes) (msg : String) : HttpRes :=
  { res with statusCode := 500, resBody := msg }

/-- Outcomes of the outbound HTTP calls made by the forwarding task:
`post_response_async`, `post_response`, `put_response`,
`delete_response`, and the `content-type` entry of the response headers
filled by the synchronous calls. -/
structure ForwardEnv where
  asyncStatus : Int
  postStatus : Int
  postBody : String
  putStatus : Int
  putBody : String
  delStatus : Int
  delBody : String
  resContentType : String
  deriving DecidableEq

/-- Modelled from the spec: `StringUtils::split` (string_utils.h, not
under src/) splits on the delimiter and drops empty tokens; `acc` holds
the characters of the token being built, in reverse. -/
def splitCharAux (delim : Char) : List Char → List Char → List String
  | [], acc => if acc.isEmpty then [] else [String.mk acc.reverse]
  | c :: cs, acc =>
      if c = delim then
        (if acc.isEmpty then [] else [String.mk acc.reverse])
          ++ splitCharAux delim cs []
      else
        splitCharAux delim cs (c :: acc)

/-- `StringUtils::split(path, path_parts, "/")`. -/
def splitSlash (s : String) : List String :=
  splitCharAux '/' s.data []

/-- `path_parts.back()` after splitting the request path on "/". -/
def lastPathSegment (path : String) : String :=
  (splitSlash path).getLastD ""

/-- The condition of the streaming-proxy branch in the source:
`path_parts.back().rfind("import", 0) == 0`, i.e. the last path segment
starts with "import". -/
def takesImportBranch (path : String) : Bool :=
  "import".data.isPrefixOf (lastPathSegment path).data

/-- The condition in the words of the specification: the path ends in
"/import".  Kept separate from `takesImportBranch` to compare the two. -/
def endsInImportSpec (path : String) : Bool :=
  "/import".data.isSuffixOf path.data

/-- The body of the lambda enqueued on the thread pool by
`follower_write` once a leader is known: dispatch on the HTTP method,
forward to the leader, then post an `ALREADY_HANDLED` completion —
except on the asynchronous import branch with a non-500 proxy status,
which returns early.  Returns the events in order and the final local
response value. -/
def forwardTask (req : HttpReq) (res : HttpRes) (env : ForwardEnv) :
    List Event × HttpRes :=
  if req.httpMethod = "POST" then
    if takesImportBranch req.path then
      -- imports are handled asynchronously; lifecycle handed to the proxy
      let res1 := { res with proxiedStream := true, autoDispose := false }
      let ev0 := [Event.proxyAsync, Event.freePair]
      if env.asyncStatus = 500 then
        -- res_headers was never filled on this path, so content-type is ""
        let res2 := set_500 { res1 with contentType := "" } ""
        (ev0 ++ [Event.sendRepl true], res2)
      else
        (ev0, res1)
    else
      let res2 := { res with contentType := env.resContentType,
                             statusCode := env.postStatus, resBody := env.postBody }
      ([Event.httpPost, Event.sendRepl true], res2)
  else if req.httpMethod = "PUT" then
    let res2 := { res with contentType := env.resContentType,
                           statusCode := env.putStatus, resBody := env.putBody }
    ([Event.httpPut, Event.sendRepl true], res2)
  else if req.httpMethod = "DELETE" then
    let res2 := { res with contentType := env.resContentType,
                           statusCode := env.delStatus, resBody := env.delBody }
    ([Event.httpDelete, Event.sendRepl true], res2)
  else
    let err := "Forwarding for http method not implemented: " ++ req.httpMethod
    ([Event.sendRepl true], set_500 res err)

/-- `ReplicationState::follower_write`.  `leaderEmpty` is
`node->leader_id().is_empty()`.  The thread-pool task is executed
inline: the claims are about what the task does once it runs. -/
def follower_write (leaderEmpty : Bool) (req : HttpReq) (res : HttpRes)
    (env : ForwardEnv) : List Event × HttpRes :=
  if leaderEmpty then
    if req.proceedReq && res.proxiedStream then
      ([Event.notifyAwait], res)
    else
      (([Event.sendRepl true]), set_500 res "Could not find a leader.")
  else
    if req.proceedReq && res.proxiedStream then
      ([Event.notifyAwait], res)
    else
      forwardTask req res env

/-- `ReplicationState::write`.  `nodeExists` is `node != nullptr`,
`isLeader` is `node->is_leader()`; on the leader the request is
serialized and submitted as a braft task. -/
def write (nodeExists isLeader leaderEmpty : Bool) (req : HttpReq)
    (res : HttpRes) (env : ForwardEnv) : List Event × HttpRes :=
  if !nodeExists then
    ([], res)
  else if !isLeader then
    follower_write leaderEmpty req res env
  else
    ([Event.submitTask], res)

/-- Number of completions posted to the dispatcher whose request
route_hash was set to `ALREADY_HANDLED`. -/
def countAlreadyHandledPosts (evs : List Event) : Nat :=
  (evs.filter fun e =>
    match e with
    | Event.sendRepl true => true
    | _ => false).length

/-- The status carried by a braft closure when it is invoked: default
(success) unless `set_error(EIO, msg)` was called on it. -/
inductive BStatus where
  | ok
  | eio (msg : String)
  deriving DecidableEq

/-- Outcomes of the external steps of a snapshot save:
`rocksdb::Checkpoint::Create`, `checkpoint->CreateCheckpoint`, and
`writer->add_file` for each file enumerated under the checkpoint
directory. -/
structure SnapshotSaveEnv where
  checkpointCreateOk : Bool
  createCheckpointOk : Bool
  addFileOk : List Bool
  deriving DecidableEq

/-- `ReplicationState::save_snapshot`, the bthread body started by
`on_snapshot_save`.  The `brpc::ClosureGuard` invokes `done` on every
return path; the returned `BStatus` is the status `done` carries at that
moment.  On `Checkpoint::Create` or `CreateCheckpoint` failure the
function returns after logging, leaving the status untouched; only an
`add_file` failure calls `set_error(EIO, ...)`. -/
def save_snapshot (env : SnapshotSaveEnv) : BStatus :=
  if !env.checkpointCreateOk then
    BStatus.ok
  else if !env.createCheckpointOk then
    BStatus.ok
  else if env.addFileOk.all (fun b => b) then
    BStatus.ok
  else
    BStatus.eio "Fail to add file to writer."

/-- Outcomes of the external steps of `init_db`:
`butil::CreateDirectory`, `store->init_db()` and
`CollectionManager::get_instance().load()`. -/
structure InitDbEnv where
  createDirOk : Bool
  storeInitOk : Bool
  loadOk : Bool
  deriving DecidableEq

/-- `ReplicationState::init_db`: recreate the state directory, open the
store, reload collections; on full success `init_readiness_count++` (the
`readinessIncr` event) and return 0.  A failed collection load returns 1,
the earlier failures return -1. -/
def init_db (env : InitDbEnv) : Int × List Event :=
  if !env.createDirOk then
    (-1, [Event.createStateDir])
  else if !env.storeInitOk then
    (-1, [Event.createStateDir, Event.storeInitDb])
  else if !env.loadOk then
    (1, [Event.createStateDir, Event.storeInitDb, Event.collectionsLoad])
  else
    (0, [Event.createStateDir, Event.storeInitDb, Event.collectionsLoad,
         Event.readinessIncr])

/-- Outcomes of the external steps of `start`: parsing the nodes
configuration, `dir_enum_count(snapshot_dir) > 0`, `butil::DeleteFile`
on the state directory, the `init_db` internals, and `node->init`. -/
structure StartEnv where
  parseOk : Bool
  snapshotExists : Bool
  deleteOk : Bool
  initDbEnv : InitDbEnv
  nodeInitOk : Bool
  deriving DecidableEq

/-- `ReplicationState::start`.  After the bootstrap decision the
consensus node is initialized (`nodeInit`); a successful run returns 0.
When a snapshot exists the DB bootstrap is deferred to
`on_snapshot_load`; when none exists and `create_init_db_snapshot` is
false the store is closed, the state directory deleted and `init_db`
called (`initDbCall` marks the invocation). -/
def start (create_init_db_snapshot : Bool) (env : StartEnv) :
    Int × List Event :=
  if !env.parseOk then
    (-1, [])
  else
    let boot : Option Int × List Event :=
      if env.snapshotExists then
        -- on_snapshot_load() will fire and we wait for that to init_db()
        (none, [])
      else if !create_init_db_snapshot then
        if !env.deleteOk then
          (some (-1), [Event.resetDb, Event.deleteStateDir])
        else
          let r := init_db env.initDbEnv
          if r.1 ≠ 0 then
            (some r.1,
             [Event.resetDb, Event.deleteStateDir, Event.initDbCall] ++ r.2)
          else
            (none,
             [Event.resetDb, Event.deleteStateDir, Event.initDbCall] ++ r.2)
      else
        (none, [])
    match boot.1 with
    | some r => (r, boot.2)
    | none =>
        if !env.nodeInitOk then
          (-1, boot.2 ++ [Event.nodeInit])
        else
          (0, boot.2 ++ [Event.nodeInit])

/-- Outcomes of the external steps of `on_snapshot_load`:
`butil::DeleteFile` on the state directory, `copy_dir` from the
snapshot's `db_snapshot` directory, and the `init_db` internals. -/
structure SnapshotLoadEnv where
  deleteOk : Bool
  copyOk : Bool
  initDbEnv : InitDbEnv
  deriving DecidableEq

/-- `ReplicationState::on_snapshot_load`: close the store, delete the
state directory, copy the snapshot's `db_snapshot` contents in its
place, then `init_db`.  Every failure returns non-zero. -/
def on_snapshot_load (env : SnapshotLoadEnv) : Int × List Event :=
  if !env.deleteOk then
    (-1, [Event.resetDb, Event.deleteStateDir])
  else if !env.copyOk then
    (-1, [Event.resetDb, Event.deleteStateDir, Event.copyDirEv])
  else
    let r := init_db env.initDbEnv
    (r.1, [Event.resetDb, Event.deleteStateDir, Event.copyDirEv,
           Event.initDbCall] ++ r.2)

/-- One committed entry as the apply loop sees it: `hasHandle` is
`request->_req != nullptr` (recovered from the local closure, or null
for an entry deserialized from the log), `entryBody` is the request
body, and `finalRes` is the value of `response->final` observed after
the HTTP worker notifies `response->await`. -/
structure ApplyEntry where
  hasHandle : Bool
  entryBody : String
  finalRes : Bool
  deriving DecidableEq

/-- The loop body of `ReplicationState::on_apply`, over the remaining
entries of the batch, with `i` the position of the head entry.
`shutDown i` is the value of the `shut_down` flag read by the check that
follows the processing of entry `i`.  The `INIT_SNAPSHOT` sentinel
triggers a snapshot, frees its pair and `continue`s (skipping that
check); a normal entry is dispatched on `REPLICATION_MSG`, awaited,
freed when final, and then the shutdown check may roll back and
return. -/
def onApplyGo (shutDown : Nat → Bool) : List ApplyEntry → Nat → List Event
  | [], _ => []
  | e :: rest, i =>
      if !e.hasHandle && e.entryBody = "INIT_SNAPSHOT" then
        [Event.triggerSnapshot i, Event.freeEntry i]
          ++ onApplyGo shutDown rest (i + 1)
      else
        [Event.dispatchEntry i, Event.waitAwait i]
          ++ (if e.finalRes then [Event.freeEntry i] else [])
          ++ (if shutDown i then [Event.rollback]
              else onApplyGo shutDown rest (i + 1))

/-- `ReplicationState::on_apply` on a committed batch. -/
def on_apply (shutDown : Nat → Bool) (entries : List ApplyEntry) :
    List Event :=
  onApplyGo shutDown entries 0

/-- The leadership view of the local node in `refresh_nodes`:
`node->is_leader()`, or not leader with `node->leader_id()` known,
or not leader with an empty leader id. -/
inductive LeaderView where
  | leader
  | hasLeader
  | noLeader
  deriving DecidableEq

/-- `ReplicationState::refresh_nodes` with a configuration of
`numPeers` peers: a leader issues `change_peers`; a node with no leader
resets peers only for a singleton configuration; otherwise membership is
left untouched. -/
def refresh_nodes (nodeExists : Bool) (view : LeaderView)
    (numPeers : Nat) : List Event :=
  if !nodeExists then
    []
  else
    match view with
    | LeaderView.leader => [Event.changePeers]
    | LeaderView.hasLeader => []
    | LeaderView.noLeader =>
        if numPeers = 1 then [Event.resetPeers] else []

/-- Number of times `init_readiness_count` was incremented in a run. -/
def countReadiness (evs : List Event) : Nat :=
  (evs.filter fun e =>
    match e with
    | Event.readinessIncr => true
    | _ => false).length

/-- A response with no streaming in progress. -/
def plainRes : HttpRes := ⟨false, true, 200, "", "", false⟩

/-- A response whose streaming proxy is already in flight. -/
def streamRes : HttpRes := ⟨true, true, 200, "", "", false⟩

/-- An import request (last path segment is exactly "import"). -/
def importOkReq : HttpReq := ⟨false, "POST", "/collections/c/documents/import", "docs"⟩

/-- A request whose last path segment starts with "import" but whose
path does not end in "/import". -/
def importsReq : HttpReq := ⟨false, "POST", "/collections/c/imports", "docs"⟩

/-- An in-flight request with `proceed_req` set. -/
def streamReq : HttpReq := ⟨true, "POST", "/collections/c/documents/import", "docs"⟩

/-- A plain synchronous POST. -/
def plainPostReq : HttpReq := ⟨false, "POST", "/keys", ""⟩

/-- HTTP outcomes where the asynchronous proxy returns 200. -/
def fwd200Env : ForwardEnv := ⟨200, 201, "created", 200, "ok", 200, "ok", "application/json"⟩

/-- HTTP outcomes where the asynchronous proxy returns 500. -/
def fwd500Env : ForwardEnv := { fwd200Env with asyncStatus := 500 }

/-- All external steps of `init_db` succeed. -/
def allOkInitEnv : InitDbEnv := ⟨true, true, true⟩

/-- A `start` run with no snapshot present and all external steps fine. -/
def allOkStartEnv : StartEnv := ⟨true, false, true, allOkInitEnv, true⟩

/-- A snapshot-load run with all external steps fine. -/
def allOkLoadEnv : SnapshotLoadEnv := ⟨true, true, allOkInitEnv⟩

/-- A `shut_down` flag already raised before the batch starts. -/
def shutDownAlways : Nat → Bool := fun _ => true

/-- A `shut_down` flag never raised. -/
def shutDownNever : Nat → Bool := fun _ => false

/-- The `INIT_SNAPSHOT` sentinel entry: no live request pointer. -/
def sentinelEntry : ApplyEntry := ⟨false, "INIT_SNAPSHOT", false⟩

/-- An ordinary committed entry. -/
def normalEntry : ApplyEntry := ⟨true, "doc-entry", true⟩

/-- Indexed dispatch events emitted by the apply loop on a suffix of the
batch starting at position `j` carry indices at least `j`. -/
theorem onApplyGo_dispatch_index_ge (shutDown : Nat → Bool) :
    ∀ (l : List ApplyEntry) (j k : Nat),
      Event.dispatchEntry k ∈ onApplyGo shutDown l j → j ≤ k := by
  intro l
  induction l with
  | nil => intro j k h; simp [onApplyGo] at h
  | cons e rest ih =>
      intro j k h
      rw [onApplyGo] at h
      by_cases hs : (!e.hasHandle && e.entryBody = "INIT_SNAPSHOT") = true
      · rw [if_pos hs] at h
        simp at h
        exact Nat.le_of_succ_le (ih (j + 1) k h)
      · rw [if_neg hs] at h
        by_cases hd : shutDown j = true <;> by_cases hf : e.finalRes = true <;>
          simp [hd, hf] at h
        · omega
        · omega
        · rcases h with h | h
          · omega
          · exact Nat.le_of_succ_le (ih (j + 1) k h)
        · rcases h with h | h
          · omega
          · exact Nat.le_of_succ_le (ih (j + 1) k h)

/-- C10: `write` on a node whose consensus handle is null returns at
once: no task submitted, no forwarding, no response written, nothing
posted, so the caller's wait-point is never notified. -/
theorem write_without_node_is_noop (isLeader leaderEmpty : Bool)
    (req : HttpReq) (res : HttpRes) (env : ForwardEnv) :
    write false isLeader leaderEmpty req res env = ([], res) := rfl

/-- C7: an entry with no live HTTP handle whose body is "INIT_SNAPSHOT"
triggers a snapshot on the consensus node, is never dispatched to the
HTTP layer, has its request/response pair freed, and the loop continues
with the next entry. -/
theorem on_apply_init_snapshot_sentinel (shutDown : Nat → Bool)
    (e : ApplyEntry) (rest : List ApplyEntry) (i : Nat)
    (hh : e.hasHandle = false) (hb : e.entryBody = "INIT_SNAPSHOT") :
    onApplyGo shutDown (e :: rest) i =
      [Event.triggerSnapshot i, Event.freeEntry i]
        ++ onApplyGo shutDown rest (i + 1) ∧
    Event.dispatchEntry i ∉ onApplyGo shutDown (e :: rest) i := by
  have hcond : (!e.hasHandle && e.entryBody = "INIT_SNAPSHOT") = true := by
    simp [hh, hb]
  have heq : onApplyGo shutDown (e :: rest) i =
      [Event.triggerSnapshot i, Event.freeEntry i]
        ++ onApplyGo shutDown rest (i + 1) := by
    rw [onApplyGo, if_pos hcond]
  refine ⟨heq, ?_⟩
  rw [heq]
  intro hmem
  simp at hmem
  have := onApplyGo_dispatch_index_ge shutDown rest (i + 1) i hmem
  omega

/-- C7 witness: concrete sentinel batch. -/
theorem on_apply_init_snapshot_sentinel_witness :
    onApplyGo shutDownNever (sentinelEntry :: [normalEntry]) 0 =
      [Event.triggerSnapshot 0, Event.freeEntry 0]
        ++ onApplyGo shutDownNever [normalEntry] 1 ∧
    Event.dispatchEntry 0 ∉ onApplyGo shutDownNever (sentinelEntry :: [normalEntry]) 0 :=
  on_apply_init_snapshot_sentinel shutDownNever sentinelEntry [normalEntry] 0 rfl rfl

/-- C9 counterexample: with `shut_down` already set before the batch, a
batch whose first entry is the `INIT_SNAPSHOT` sentinel still applies
(dispatches) the second entry: the sentinel branch `continue`s without
checking the flag, so the claim that the flag is checked after every
committed entry — and hence that no later entry is applied once it is
set — fails at this input. -/
theorem on_apply_shutdown_missed_after_sentinel :
    shutDownAlways 0 = true ∧
    Event.dispatchEntry 1 ∈ on_apply shutDownAlways [sentinelEntry, normalEntry] := by
  constructor
  · rfl
  · simp [on_apply, onApplyGo, sentinelEntry, normalEntry, shutDownAlways]

/-- C9 amended: the apply loop checks `shut_down` after processing each
non-sentinel committed entry; whenever the flag is set at such a check
it calls `set_error_and_rollback` and returns, so no later entry of the
batch is applied after the check observes the flag. -/
theorem on_apply_shutdown_rolls_back (shutDown : Nat → Bool)
    (e : ApplyEntry) (rest : List ApplyEntry) (i : Nat)
    (hns : ¬(e.hasHandle = false ∧ e.entryBody = "INIT_SNAPSHOT"))
    (hsd : shutDown i = true) :
    onApplyGo shutDown (e :: rest) i =
      [Event.dispatchEntry i, Event.waitAwait i]
        ++ (if e.finalRes then [Event.freeEntry i] else [])
        ++ [Event.rollback] := by
  have hcond : (!e.hasHandle && e.entryBody = "INIT_SNAPSHOT") = false := by
    cases hv : e.hasHandle
    · simp only [hv, Bool.not_false, Bool.true_and]
      by_cases hb : e.entryBody = "INIT_SNAPSHOT"
      · exact absurd ⟨hv, hb⟩ hns
      · simp [hb]
    · simp [hv]
  rw [onApplyGo, if_neg (by simp [hcond]), hsd]
  simp

/-- C9 amended witness: a normal entry with the flag raised rolls back
immediately and the rest of the batch contributes nothing. -/
theorem on_apply_shutdown_rolls_back_witness :
    onApplyGo shutDownAlways (normalEntry :: [normalEntry]) 0 =
      [Event.dispatchEntry 0, Event.waitAwait 0]
        ++ (if normalEntry.finalRes then [Event.freeEntry 0] else [])
        ++ [Event.rollback] :=
  on_apply_shutdown_rolls_back shutDownAlways normalEntry [normalEntry] 0
    (by simp [normalEntry]) rfl

/-- C1: evaluation of the snapshot-save path at its failing inputs.  The
claim (and spec) say every failing step sets the done closure's status
to `EIO`; the code leaves the status at success when
`Checkpoint::Create` or `CreateCheckpoint` fails and sets `EIO` only
when `add_file` fails, so `done` reports success on the first two
failures. -/
theorem save_snapshot_failure_statuses :
    save_snapshot ⟨false, true, []⟩ = BStatus.ok ∧
    save_snapshot ⟨true, false, []⟩ = BStatus.ok ∧
    save_snapshot ⟨true, true, [true, false]⟩ =
      BStatus.eio "Fail to add file to writer." ∧
    save_snapshot ⟨true, true, [true, true]⟩ = BStatus.ok := by
  refine ⟨rfl, rfl, rfl, rfl⟩

/-- C5: with a parsable configuration, `start` invokes `init_db`
directly iff the snapshot directory is empty, `create_init_db_snapshot`
is false and the state-directory deletion succeeded; the call happens
only after closing the store and deleting the state directory; a
non-empty snapshot directory defers initialization (no direct call). -/
theorem start_init_db_exactly_when_fresh (flag : Bool) (env : StartEnv)
    (hp : env.parseOk = true) :
    (Event.initDbCall ∈ (start flag env).2 ↔
      (env.snapshotExists = false ∧ flag = false ∧ env.deleteOk = true)) ∧
    (Event.initDbCall ∈ (start flag env).2 →
      (start flag env).2.take 3 =
        [Event.resetDb, Event.deleteStateDir, Event.initDbCall]) ∧
    (env.snapshotExists = true → Event.initDbCall ∉ (start flag env).2) := by
  obtain ⟨p, s, d, ⟨c, st, l⟩, n⟩ := env
  simp only at hp
  subst hp
  cases flag <;> cases s <;> cases d <;> cases c <;> cases st <;> cases l <;>
    cases n <;> decide

/-- C5 witness: fresh start with everything succeeding. -/
theorem start_init_db_exactly_when_fresh_witness :
    Event.initDbCall ∈ (start false allOkStartEnv).2 ∧
    (start false allOkStartEnv).2.take 3 =
      [Event.resetDb, Event.deleteStateDir, Event.initDbCall] :=
  ⟨(start_init_db_exactly_when_fresh false allOkStartEnv rfl).1.mpr
      ⟨rfl, rfl, rfl⟩,
   (start_init_db_exactly_when_fresh false allOkStartEnv rfl).2.1
      ((start_init_db_exactly_when_fresh false allOkStartEnv rfl).1.mpr
        ⟨rfl, rfl, rfl⟩)⟩

/-- C6: `on_snapshot_load` returns zero iff every step (state-dir
deletion, snapshot copy, state-dir re-creation, store open, collection
load) succeeded; on success the run closed the store, deleted the state
directory, copied the snapshot's `db_snapshot` contents, called
`init_db`, and incremented `init_readiness_count` exactly once. -/
theorem on_snapshot_load_zero_iff_all_ok (env : SnapshotLoadEnv) :
    ((on_snapshot_load env).1 = 0 ↔
      (env.deleteOk = true ∧ env.copyOk = true ∧
       env.initDbEnv.createDirOk = true ∧ env.initDbEnv.storeInitOk = true ∧
       env.initDbEnv.loadOk = true)) ∧
    ((on_snapshot_load env).1 = 0 →
      (on_snapshot_load env).2 =
        [Event.resetDb, Event.deleteStateDir, Event.copyDirEv,
         Event.initDbCall, Event.createStateDir, Event.storeInitDb,
         Event.collectionsLoad, Event.readinessIncr] ∧
      countReadiness (on_snapshot_load env).2 = 1) := by
  obtain ⟨d, cp, ⟨c, st, l⟩⟩ := env
  cases d <;> cases cp <;> cases c <;> cases st <;> cases l <;> decide

/-- C6 witness: the all-success snapshot load. -/
theorem on_snapshot_load_zero_iff_all_ok_witness :
    (on_snapshot_load allOkLoadEnv).1 = 0 ∧
    countReadiness (on_snapshot_load allOkLoadEnv).2 = 1 :=
  ⟨(on_snapshot_load_zero_iff_all_ok allOkLoadEnv).1.mpr
      ⟨rfl, rfl, rfl, rfl, rfl⟩,
   ((on_snapshot_load_zero_iff_all_ok allOkLoadEnv).2
      ((on_snapshot_load_zero_iff_all_ok allOkLoadEnv).1.mpr
        ⟨rfl, rfl, rfl, rfl, rfl⟩)).2⟩

/-- C8: `refresh_nodes` on a node with no known leader leaves
membership untouched when the new configuration has more than one peer,
forcibly resets peers for a singleton configuration, and issues
`change_peers` on a leader. -/
theorem refresh_nodes_membership (n : Nat) (hn : 1 < n) :
    refresh_nodes true LeaderView.noLeader n = [] ∧
    refresh_nodes true LeaderView.noLeader 1 = [Event.resetPeers] ∧
    refresh_nodes true LeaderView.leader n = [Event.changePeers] := by
  refine ⟨?_, rfl, rfl⟩
  have hne : n ≠ 1 := by omega
  simp [refresh_nodes, hne]

/-- C8 witness: a two-peer configuration. -/
theorem refresh_nodes_membership_witness :
    refresh_nodes true LeaderView.noLeader 2 = [] ∧
    refresh_nodes true LeaderView.noLeader 1 = [Event.resetPeers] ∧
    refresh_nodes true LeaderView.leader 2 = [Event.changePeers] :=
  refresh_nodes_membership 2 (by decide)

/-- C4: a write with no known leader: unless an in-flight proxied
stream is in progress (`proceed_req` set and `proxied_stream` true),
the response becomes HTTP 500 "Could not find a leader." and exactly
one `ALREADY_HANDLED` completion is posted; for an in-flight proxied
stream the wait-point is notified, the response is left untouched and
nothing is posted. -/
theorem follower_write_no_leader (req : HttpReq) (res : HttpRes)
    (env : ForwardEnv) :
    ((req.proceedReq && res.proxiedStream) = false →
      follower_write true req res env =
        ([Event.sendRepl true], set_500 res "Could not find a leader.") ∧
      (set_500 res "Could not find a leader.").statusCode = 500 ∧
      (set_500 res "Could not find a leader.").resBody =
        "Could not find a leader.") ∧
    ((req.proceedReq && res.proxiedStream) = true →
      follower_write true req res env = ([Event.notifyAwait], res)) := by
  constructor <;> intro h <;> simp [follower_write, h, set_500]

/-- C4 witness: both branches at concrete requests. -/
theorem follower_write_no_leader_witness :
    follower_write true plainPostReq plainRes fwd200Env =
      ([Event.sendRepl true], set_500 plainRes "Could not find a leader.") ∧
    follower_write true streamReq streamRes fwd200Env =
      ([Event.notifyAwait], streamRes) :=
  ⟨((follower_write_no_leader plainPostReq plainRes fwd200Env).1 rfl).1,
   (follower_write_no_leader streamReq streamRes fwd200Env).2 rfl⟩

/-- C2 counterexample: an asynchronous import POST forwarded to a known
leader whose proxy returns a non-500 status posts no completion at all
(the task returns early), contradicting the claim that every forwarded
request posts exactly one `ALREADY_HANDLED` completion. -/
theorem follower_write_async_import_posts_nothing :
    importOkReq.httpMethod = "POST" ∧
    takesImportBranch importOkReq.path = true ∧
    countAlreadyHandledPosts
      (follower_write false importOkReq plainRes fwd200Env).1 = 0 := by
  refine ⟨rfl, rfl, rfl⟩

/-- C2 amended: a request forwarded to a known leader posts exactly one
`ALREADY_HANDLED` completion on `REPLICATION_MSG` for synchronous POST,
PUT, DELETE and unsupported methods; the asynchronous import POST
branch posts exactly one completion when the proxy returns 500 and none
otherwise. -/
theorem follower_write_completion_count (req : HttpReq) (res : HttpRes)
    (env : ForwardEnv)
    (hin : (req.proceedReq && res.proxiedStream) = false) :
    countAlreadyHandledPosts (follower_write false req res env).1 =
      if req.httpMethod = "POST" ∧ takesImportBranch req.path = true ∧
         env.asyncStatus ≠ 500
      then 0 else 1 := by
  simp only [follower_write, Bool.false_eq_true, if_false, hin]
  by_cases hm : req.httpMethod = "POST"
  · by_cases hb : takesImportBranch req.path = true
    · by_cases hs : env.asyncStatus = 500
      · simp [forwardTask, hm, hb, hs, countAlreadyHandledPosts]
      · simp [forwardTask, hm, hb, hs, countAlreadyHandledPosts]
    · simp [forwardTask, hm, hb, countAlreadyHandledPosts]
  · by_cases hp : req.httpMethod = "PUT"
    · simp [forwardTask, hm, hp, countAlreadyHandledPosts]
    · by_cases hd : req.httpMethod = "DELETE"
      · simp [forwardTask, hm, hp, hd, countAlreadyHandledPosts]
      · simp [forwardTask, hm, hp, hd, countAlreadyHandledPosts]

/-- C2 amended witness: a plain synchronous POST posts exactly once. -/
theorem follower_write_completion_count_witness :
    countAlreadyHandledPosts
      (follower_write false plainPostReq plainRes fwd200Env).1 = 1 :=
  Eq.trans
    (follower_write_completion_count plainPostReq plainRes fwd200Env rfl)
    (by decide)

/-- C3 counterexample: the POST request to "/collections/c/imports"
takes the streaming-proxy branch (its last path segment starts with
"import") although its path does not end in "/import", refuting the
claimed iff. -/
theorem import_branch_despite_path_suffix :
    importsReq.httpMethod = "POST" ∧
    endsInImportSpec importsReq.path = false ∧
    Event.proxyAsync ∈ (follower_write false importsReq plainRes fwd200Env).1 := by
  refine ⟨rfl, rfl, ?_⟩
  decide

/-- C3 amended: in `follower_write` with a known leader, a POST request
takes the streaming-proxy branch iff the last "/"-separated segment of
its path starts with "import"; on that branch the response has
`proxied_stream = true` and `auto_dispose = false`, the request/response
pair is freed there, and a proxy status of 500 makes the local response
a 500. -/
theorem follower_write_import_branch (req : HttpReq) (res : HttpRes)
    (env : ForwardEnv)
    (hm : req.httpMethod = "POST")
    (hin : (req.proceedReq && res.proxiedStream) = false) :
    (Event.proxyAsync ∈ (follower_write false req res env).1 ↔
      takesImportBranch req.path = true) ∧
    (takesImportBranch req.path = true →
      (follower_write false req res env).2.proxiedStream = true ∧
      (follower_write false req res env).2.autoDispose = false ∧
      Event.freePair ∈ (follower_write false req res env).1 ∧
      (env.asyncStatus = 500 →
        (follower_write false req res env).2.statusCode = 500)) := by
  simp only [follower_write, Bool.false_eq_true, if_false, hin]
  by_cases hb : takesImportBranch req.path = true
  · by_cases hs : env.asyncStatus = 500
    · simp [forwardTask, hm, hb, hs, set_500]
    · simp [forwardTask, hm, hb, hs, set_500]
  · simp [forwardTask, hm, hb]

/-- C3 amended witness: the import request with a 500 proxy status. -/
theorem follower_write_import_branch_witness :
    (follower_write false importOkReq plainRes fwd500Env).2.proxiedStream = true ∧
    (follower_write false importOkReq plainRes fwd500Env).2.autoDispose = false ∧
    Event.freePair ∈ (follower_write false importOkReq plainRes fwd500Env).1 ∧
    (follower_write false importOkReq plainRes fwd500Env).2.statusCode = 500 := by
  have h := (follower_write_import_branch importOkReq plainRes fwd500Env
    rfl rfl).2 rfl
  exact ⟨h.1, h.2.1, h.2.2.1, h.2.2.2 rfl⟩

end RaftServer
